import Mathlib

/-!
A shallow embedding, in Lean 4, of the Selenium page-object test suite for the
SauceDemo web shop (files `WebDriverManager.js`, `BasePage.js`, `LoginPage.js`,
`ProductsPage.js`, `CartPage.js`, `TestDataReader.js`).

JavaScript numbers are modelled as `Option ℚ`, with `none` standing for `NaN`;
the arithmetic and strict-equality operators propagate and reject `NaN` exactly
as in JavaScript.  Thrown exceptions are modelled with `Except`.  A DOM page is
a snapshot: elements carry a displayed flag, the result of `getText` (with
`none` standing for a read that throws, e.g. on a stale reference) and an
optional `id` attribute.
-/

namespace SauceDemo

/-- A thrown JavaScript error, distinguished by the way it arises in the code:
a plain `new Error(msg)`, a runtime `TypeError`, or a wait timeout. -/
inductive JsError where
  | error (msg : String)
  | typeError (msg : String)
  | timeout (msg : String)
deriving DecidableEq, Repr

instance {ε α : Type} [DecidableEq ε] [DecidableEq α] :
    DecidableEq (Except ε α) := fun x y =>
  match x, y with
  | .ok a, .ok b =>
    if h : a = b then isTrue (by rw [h])
    else isFalse (by intro hc; cases hc; exact h rfl)
  | .error a, .error b =>
    if h : a = b then isTrue (by rw [h])
    else isFalse (by intro hc; cases hc; exact h rfl)
  | .ok _, .error _ => isFalse (fun hc => Except.noConfusion hc)
  | .error _, .ok _ => isFalse (fun hc => Except.noConfusion hc)

/-- A JavaScript number: `none` stands for `NaN`. -/
abbrev JsNum : Type := Option ℚ

/-- JS addition: `NaN` propagates.  The sum is built with `Rat.divInt` over
numerators and denominators (the standard cross-multiplication formula), which
is the same rational as `a + b` — see `jsAdd_some`. -/
def jsAdd : JsNum → JsNum → JsNum
  | some a, some b =>
    some (Rat.divInt (a.num * (b.den : ℤ) + b.num * (a.den : ℤ))
      ((a.den : ℤ) * (b.den : ℤ)))
  | _, _ => none

/-- JS multiplication: `NaN` propagates.  The product is built with
`Rat.divInt` (numerators times numerators over denominators times
denominators), the same rational as `a * b` — see `jsMul_some`. -/
def jsMul : JsNum → JsNum → JsNum
  | some a, some b =>
    some (Rat.divInt (a.num * b.num) ((a.den : ℤ) * (b.den : ℤ)))
  | _, _ => none

/-- JS strict equality on numbers: `NaN === x` is `false` for every `x`. -/
def jsEqNum : JsNum → JsNum → Bool
  | some a, some b => decide (a = b)
  | _, _ => false

/-- Numeric value of a list of decimal digit characters. -/
def digitsVal (ds : List Char) : Nat :=
  ds.foldl (fun n c => n * 10 + (c.toNat - '0'.toNat)) 0

/-- Strip an optional leading sign from a character list; the flag is `true`
for a minus sign. -/
def splitSign (cs : List Char) : Bool × List Char :=
  match cs with
  | [] => (false, [])
  | c :: rest =>
    if c = '-' then (true, rest)
    else if c = '+' then (false, rest)
    else (false, c :: rest)

/-- Apply a parsed sign to a natural magnitude. -/
def signedVal (neg : Bool) (n : Nat) : ℤ :=
  if neg then -(n : ℤ) else (n : ℤ)

/-- JS `parseInt(s)` (radix 10): skip leading whitespace, optional sign,
then the longest run of leading digits; `NaN` (`none`) when that run is
empty.  Trailing characters are ignored, as in JavaScript. -/
def jsParseInt (s : String) : JsNum :=
  let p := splitSign (s.toList.dropWhile Char.isWhitespace)
  let ds := p.2.takeWhile Char.isDigit
  if ds.isEmpty then none
  else some (Rat.divInt (signedVal p.1 (digitsVal ds)) 1)

/-- JS `parseFloat(s)` restricted to the plain decimal forms the application
produces (no exponent or Infinity forms): skip leading whitespace, optional
sign, leading digits, then an optional fractional part introduced by a dot;
`NaN` (`none`) when no digit is found at all.  Trailing characters are
ignored, as in JavaScript.  The value `±(i + f / 10^k)` is built as the
single fraction `±(i * 10^k + f) / 10^k` with `Rat.divInt`. -/
def jsParseFloat (s : String) : JsNum :=
  let p := splitSign (s.toList.dropWhile Char.isWhitespace)
  let intPart := p.2.takeWhile Char.isDigit
  let rest := p.2.dropWhile Char.isDigit
  let fracPart :=
    match rest with
    | '.' :: r => r.takeWhile Char.isDigit
    | _ => []
  if intPart.isEmpty ∧ fracPart.isEmpty then none
  else
    some (Rat.divInt
      (signedVal p.1 (digitsVal intPart * 10 ^ fracPart.length + digitsVal fracPart))
      ((10 : ℤ) ^ fracPart.length))

/-- Whether the second character list starts with the first one. -/
def leadsWith : List Char → List Char → Bool
  | [], _ => true
  | _ :: _, [] => false
  | p :: ps, c :: cs => p = c && leadsWith ps cs

/-- The body of `jsReplaceFirst`: scan for the first occurrence of `pat`
(nonempty) and splice `repl` in its place. -/
def jsReplaceFirstGo (pat repl : List Char) : List Char → List Char
  | [] => []
  | c :: rest =>
    if leadsWith pat (c :: rest) then repl ++ rest.drop (pat.length - 1)
    else c :: jsReplaceFirstGo pat repl rest

/-- JS `s.replace(pat, repl)` with a string pattern: replaces the first
occurrence of `pat` only; with an empty pattern, JS prepends `repl`. -/
def jsReplaceFirst (s pat repl : String) : String :=
  if pat.isEmpty then String.mk (repl.toList ++ s.toList)
  else String.mk (jsReplaceFirstGo pat.toList repl.toList s.toList)

/-- JS `s.trim()`: strip whitespace from both ends. -/
def jsTrim (s : String) : String :=
  String.mk
    (((s.toList.dropWhile Char.isWhitespace).reverse.dropWhile
        Char.isWhitespace).reverse)

/-- The body of `jsSplitChar`: cut the character list at every occurrence of
the separator character (`acc` holds the current piece reversed). -/
def jsSplitCharGo (sepc : Char) : List Char → List Char → List String
  | [], acc => [String.mk acc.reverse]
  | c :: rest, acc =>
    if c = sepc then String.mk acc.reverse :: jsSplitCharGo sepc rest []
    else jsSplitCharGo sepc rest (c :: acc)

/-- JS `s.split(sep)` for a one-character separator (the only separators the
code uses are a newline and a comma): never empty — splitting the empty
string yields one empty piece, as in JavaScript. -/
def jsSplitChar (s : String) (sepc : Char) : List String :=
  jsSplitCharGo sepc s.toList []

/-- A DOM element in a page snapshot: whether `isDisplayed()` holds, the
result of `getText()` (`none` = the read throws, e.g. stale reference), and
the value of `getAttribute("id")` (`none` = no `id` attribute, JS `null`). -/
structure Elem where
  displayed : Bool := true
  textRes : Option String := some ""
  attrId : Option String := none
deriving DecidableEq, Repr

/-- JS `s.toLowerCase()`: lower-case each character. -/
def jsToLowerCase (s : String) : String :=
  String.mk (s.toList.map Char.toLower)

/-! ## WebDriverManager (`src/utils/WebDriverManager.js`) -/

/-- The configuration of a launched browser session, as assembled by
`WebDriverManager.createDriver`: browser kind, headless flag, the option
arguments passed to the builder, and the implicit wait installed after
the build. -/
structure DriverConfig where
  browser : String
  headless : Bool
  args : List String
  implicitWaitMs : Nat
deriving DecidableEq, Repr

/-- `WebDriverManager.createDriver(browserName, headless)`.

The source first tests `browserName.toLowerCase() === "chrome"`; on the
`else if` branch it calls `browserName.toLowercase()` — a method that does not
exist on JS strings — so every non-chrome name throws
`TypeError: browserName.toLowercase is not a function` before either the
firefox branch or the `Unsupported browser` throw can run.  The surrounding
`try`/`catch` logs and rethrows, so it is the identity on errors. -/
def createDriver (browserName : String) (headless : Bool) :
    Except JsError DriverConfig :=
  if jsToLowerCase browserName = "chrome" then
    .ok { browser := "chrome"
        , headless := headless
        , args :=
            (if headless then ["--headless"] else []) ++
            ["--no-sandbox", "--disable-dev-shm-usage", "--disable-gpu",
             "--window-size=1920,1080"]
        , implicitWaitMs := 10000 }
  else
    .error (.typeError "browserName.toLowercase is not a function")

/-- Observable driver-level effects of a manager method. -/
inductive DriverEv where
  | quitCalled
deriving DecidableEq, Repr

/-- The state of a `WebDriverManager`: `driver` is `none` when no driver was
created; otherwise it records the outcome the underlying `driver.quit()` call
would have (`.ok` = quits cleanly, `.error` = the quit throws). -/
structure ManagerState where
  driver : Option (Except JsError Unit)
deriving Repr

/-- `WebDriverManager.quitDriver()`: when a driver exists, `driver.quit()` is
attempted inside a `try`; a failure is caught and logged, never rethrown.
When no driver exists nothing happens.  The returned list records which
driver-level calls were made. -/
def quitDriver (m : ManagerState) : Except JsError (List DriverEv) :=
  match m.driver with
  | none => .ok []
  | some quitOutcome =>
    match quitOutcome with
    | .ok _ => .ok [.quitCalled]
    | .error _ => .ok [.quitCalled]

/-! ## BasePage (`src/pages/BasePage.js`) -/

/-- A snapshot of the current DOM, as the page objects observe it: each
locator string is mapped to the first element matching it, if any
(`driver.findElement` resolves the first match or throws when there is
none). -/
structure DomPage where
  elems : List (String × Elem)
deriving Repr

/-- The first element of the page matching the locator, if any. -/
def findEl (p : DomPage) (loc : String) : Option Elem :=
  (p.elems.find? (fun e => e.1 = loc)).map (fun e => e.2)

/-- `driver.findElement(locator)`: resolves the first matching element or
throws `NoSuchElementError`. -/
def driverFindElement (p : DomPage) (loc : String) : Except JsError Elem :=
  match findEl p loc with
  | some el => .ok el
  | none => .error (.error "no such element")

/-- `BasePage.findElement(locator, elementName)`: wraps
`driver.findElement`, catching its failure and rethrowing
`Error: Element 'name' not found`. -/
def baseFindElement (p : DomPage) (loc : String) (elementName : String) :
    Except JsError Elem :=
  match driverFindElement p loc with
  | .ok el => .ok el
  | .error _ =>
    .error (.error ("Element " ++ "'" ++ elementName ++ "'" ++ " not found"))

/-- `element.getText()`: the element's rendered text, or a thrown error when
the read fails (stale reference). -/
def getText (el : Elem) : Except JsError String :=
  match el.textRes with
  | some t => .ok t
  | none => .error (.error "stale element reference")

/-- `BasePage.getElementText(locator, elementName)`: resolve via
`findElement`, then `getText`; no catching of its own. -/
def getElementText (p : DomPage) (loc : String) (elementName : String) :
    Except JsError String :=
  match baseFindElement p loc elementName with
  | .ok el => getText el
  | .error e => .error e

/-- The `try` body of `BasePage.isElementDisplayed(locator)`:
`driver.findElement(locator)` then `element.isDisplayed()`. -/
def isElementDisplayedTry (p : DomPage) (loc : String) : Except JsError Bool :=
  match driverFindElement p loc with
  | .ok el => .ok el.displayed
  | .error e => .error e

/-- `BasePage.isElementDisplayed(locator)`: the `try` body with every error
caught and turned into `false`. -/
def isElementDisplayed (p : DomPage) (loc : String) : Bool :=
  match isElementDisplayedTry p loc with
  | .ok b => b
  | .error _ => false

/-! ## LoginPage (`src/pages/LoginPage.js`) -/

/-- The locator of the login error banner, `By.css('[data-test="error"]')`,
rendered as its selector string. -/
def errorMessageLoc : String := "[data-test=" ++ "\"error\"" ++ "]"

/-- `LoginPage.getErrorMessage()`: probe the error banner with
`isElementDisplayed`; return `null` (`none`) when it is not displayed,
otherwise read its text through `getElementText`. -/
def getErrorMessage (p : DomPage) : Except JsError (Option String) :=
  if isElementDisplayed p errorMessageLoc then
    match getElementText p errorMessageLoc "error message" with
    | .ok t => .ok (some t)
    | .error e => .error e
  else
    .ok none

/-! ## ProductsPage (`ProductsPage.js`) -/

/-- One `.inventory_item` product card: its sub-elements
`.inventory_item_name`, `.inventory_item_price`, `.inventory_item_desc` and
the first `button`, each possibly absent (a malformed card). -/
structure ProductCard where
  nameEl : Option Elem
  priceEl : Option Elem
  descEl : Option Elem
  buttonEl : Option Elem
deriving DecidableEq, Repr

/-- A product record as built by `ProductsPage.getAllProducts`:
`{index, name, price, priceText, description, buttonId}`. -/
structure Product where
  index : Nat
  name : String
  price : JsNum
  priceText : String
  description : String
  buttonId : Option String
deriving DecidableEq, Repr

/-- The state of the products page: the `.inventory_item` cards in document
order, and the `.shopping_cart_badge` element when one exists. -/
structure ProductsPageState where
  cards : List ProductCard
  cartBadge : Option Elem
deriving DecidableEq, Repr

/-- The `try` body of one iteration of the `getAllProducts` loop: find the
card's four sub-elements (throwing on a missing one), read the three texts
(throwing on a failed read), read the button's `id` attribute, parse the
price by stripping the first `$` with `replace` and applying `parseFloat`. -/
def extractProduct (c : ProductCard) (i : Nat) : Except JsError Product :=
  match c.nameEl, c.priceEl, c.descEl, c.buttonEl with
  | some nameEl, some priceEl, some descEl, some buttonEl =>
    match nameEl.textRes, priceEl.textRes, descEl.textRes with
    | some name, some priceText, some description =>
      let buttonId := buttonEl.attrId
      let price := jsParseFloat (jsReplaceFirst priceText "$" "")
      .ok { index := i, name := name, price := price, priceText := priceText,
            description := description, buttonId := buttonId }
    | _, _, _ => .error (.error "stale element reference")
  | _, _, _, _ => .error (.error "no such element")

/-- The loop of `getAllProducts`: each card's extraction runs in its own
`try`/`catch`; a failing card is logged and skipped, the rest are kept. -/
def getAllProductsGo : List ProductCard → Nat → List Product
  | [], _ => []
  | c :: rest, i =>
    match extractProduct c i with
    | .ok p => p :: getAllProductsGo rest (i + 1)
    | .error _ => getAllProductsGo rest (i + 1)

/-- `ProductsPage.getAllProducts()`: first waits for
`until.elementsLocated(productItems)` — a page with no product card times
out — then loops over the cards with per-card error tolerance. -/
def getAllProducts (cards : List ProductCard) : Except JsError (List Product) :=
  if cards.isEmpty then
    .error (.timeout "Products did not load within timeout")
  else
    .ok (getAllProductsGo cards 0)

/-- Whether the cart badge is displayed, as `isElementDisplayed(cartBadge)`
reports it: `false` when the badge is absent. -/
def badgeDisplayed (page : ProductsPageState) : Bool :=
  match page.cartBadge with
  | some el => el.displayed
  | none => false

/-- The `try` body of `ProductsPage.getCartItemCount()`: when the badge is
displayed, find it, read its text (a failed read throws into the catch) and
`parseInt` it; otherwise return `0`. -/
def getCartItemCountTry (page : ProductsPageState) : Except JsError JsNum :=
  if badgeDisplayed page then
    match page.cartBadge with
    | some el =>
      match getText el with
      | .ok countText => .ok (jsParseInt countText)
      | .error e => .error e
    | none => .error (.error ("Element " ++ "'" ++ "cart badge" ++ "'" ++ " not found"))
  else
    .ok (some 0)

/-- `ProductsPage.getCartItemCount()`: the `try` body with every error caught
and turned into `0` ("could not read cart count, assuming empty"). -/
def getCartItemCount (page : ProductsPageState) : JsNum :=
  match getCartItemCountTry page with
  | .ok n => n
  | .error _ => some 0

/-- `ProductsPage.waitForCartCountChange(expectedCount)`: poll
`getCartItemCount() === expectedCount` until it holds; `polls` is the finite
sequence of page states observed at the poll instants, and exhausting it
without a strict-equality hit is the driver-wait timeout. -/
def waitForCartCountChange (polls : List ProductsPageState) (expectedCount : JsNum) :
    Except JsError Unit :=
  if polls.any (fun pg => jsEqNum (getCartItemCount pg) expectedCount) then
    .ok ()
  else
    .error (.timeout "Cart count did not reach expected value within timeout")

/-- The world `addProductToCartByName` runs in: the page state at the time of
the call, and, for each add-to-cart button id, the sequence of page states the
cart-count poll would observe after clicking that button. -/
structure ProductsWorld where
  page0 : ProductsPageState
  afterClick : String → List ProductsPageState

/-- `driver.findElement(By.id(buttonId))` on the products page: resolves the
add-to-cart button carrying that id among the cards' buttons; a `null` id or
an id that is on no button throws. -/
def findButtonById (page : ProductsPageState) (idv : Option String) :
    Except JsError Elem :=
  match idv with
  | none => .error (.error "no such element")
  | some s =>
    match (page.cards.filterMap (fun c => c.buttonEl)).find?
        (fun el => el.attrId = some s) with
    | some el => .ok el
    | none => .error (.error "no such element")

/-- `ProductsPage.addProductToCartByName(productName)`: read the cart count,
enumerate the products, look the name up by exact match (throwing
`Product "name" not found on page` when absent), click that product's
add-to-cart button, then wait until the cart count strictly equals the count
read before the click plus one. -/
def addProductToCartByName (W : ProductsWorld) (productName : String) :
    Except JsError Unit :=
  let currentCartCount := getCartItemCount W.page0
  match getAllProducts W.page0.cards with
  | .error e => .error e
  | .ok products =>
    match products.find? (fun p => p.name = productName) with
    | none =>
      .error (.error ("Product " ++ "\"" ++ productName ++ "\"" ++ " not found on page"))
    | some targetProduct =>
      match findButtonById W.page0 targetProduct.buttonId with
      | .error e => .error e
      | .ok _addButton =>
        match targetProduct.buttonId with
        | none => .error (.error "no such element")
        | some idStr =>
          waitForCartCountChange (W.afterClick idStr) (jsAdd currentCartCount (some 1))

/-- A sample backpack product card, used for concrete checks. -/
def sampleBackpackCard : ProductCard :=
  ⟨some { displayed := true, textRes := some "Sauce Labs Backpack", attrId := none },
   some { displayed := true, textRes := some "$29.99", attrId := none },
   some { displayed := true, textRes := some "descr", attrId := none },
   some { displayed := true, textRes := some "Add to cart",
          attrId := some "add-to-cart-sauce-labs-backpack" }⟩

/-- The product record `getAllProducts` extracts from
`sampleBackpackCard`. -/
def sampleBackpackProduct : Product :=
  { index := 0, name := "Sauce Labs Backpack", price := some (Rat.divInt 2999 100),
    priceText := "$29.99", description := "descr",
    buttonId := some "add-to-cart-sauce-labs-backpack" }

/-- A sample products-page world: one product card, no cart badge yet, and a
single post-click poll observing the badge at "1". -/
def sampleWorld : ProductsWorld where
  page0 := { cards := [sampleBackpackCard], cartBadge := none }
  afterClick := fun _ =>
    [{ cards := [sampleBackpackCard],
       cartBadge := some { displayed := true, textRes := some "1", attrId := none } }]

/-! ## CartPage (`CartPage.js`) -/

/-- One `.cart_item` row: its sub-elements `.inventory_item_name`,
`.inventory_item_price`, `.cart_quantity` and the `remove-` button, each
possibly absent (a malformed row). -/
structure CartItemElem where
  nameEl : Option Elem
  priceEl : Option Elem
  qtyEl : Option Elem
  removeEl : Option Elem
deriving DecidableEq, Repr

/-- A cart item record as built by `CartPage.getCartItems`:
`{index, name, price, priceText, quantity, removeButtonId, totalPrice}`
with `totalPrice = price * quantity`. -/
structure CartItem where
  index : Nat
  name : String
  price : JsNum
  priceText : String
  quantity : JsNum
  removeButtonId : Option String
  totalPrice : JsNum
deriving DecidableEq, Repr

/-- One iteration of the `getCartItems` loop: find the row's four
sub-elements (throwing on a missing one), read the three texts (throwing on
a failed read), `parseInt` the quantity, read the remove button's id, parse
the price by stripping the first `$`, and build the record with
`totalPrice = price * quantity`. -/
def extractCartItem (it : CartItemElem) (i : Nat) : Except JsError CartItem :=
  match it.nameEl, it.priceEl, it.qtyEl, it.removeEl with
  | some nameEl, some priceEl, some qtyEl, some removeEl =>
    match nameEl.textRes, priceEl.textRes, qtyEl.textRes with
    | some name, some priceText, some qtyText =>
      let quantity := jsParseInt qtyText
      let removeButtonId := removeEl.attrId
      let price := jsParseFloat (jsReplaceFirst priceText "$" "")
      .ok { index := i, name := name, price := price, priceText := priceText,
            quantity := quantity, removeButtonId := removeButtonId,
            totalPrice := jsMul price quantity }
    | _, _, _ => .error (.error "stale element reference")
  | _, _, _, _ => .error (.error "no such element")

/-- The loop inside the single `try` of `getCartItems`: the items extracted
so far are accumulated, and the first failing extraction aborts the loop by
throwing. -/
def getCartItemsGo : List CartItemElem → Nat → Except JsError (List CartItem)
  | [], _ => .ok []
  | it :: rest, i =>
    match extractCartItem it i with
    | .error e => .error e
    | .ok item =>
      match getCartItemsGo rest (i + 1) with
      | .error e => .error e
      | .ok items => .ok (item :: items)

/-- `CartPage.getCartItems()`: one `try`/`catch` wraps the whole enumeration;
any error — including a malformed sub-element of a single row — lands in the
catch, which logs and returns `[]`, discarding every item extracted so far. -/
def getCartItems (items : List CartItemElem) : List CartItem :=
  match getCartItemsGo items 0 with
  | .ok l => l
  | .error _ => []

/-- `CartPage.calculateExpectedSubtotal()`: `reduce` of `totalPrice` over the
enumerated cart items, starting from `0`. -/
def calculateExpectedSubtotal (items : List CartItemElem) : JsNum :=
  (getCartItems items).foldl (fun total item => jsAdd total item.totalPrice) (some 0)

/-! ## CartPage checkout composition (`CartPage.completeCheckout`) -/

/-- The record `completeCheckout` returns: `{orderSummary, completion}`. -/
structure CheckoutResult (O C : Type) where
  orderSummary : O
  completion : C
deriving DecidableEq, Repr

/-- The six stage methods of the cart page's checkout flow, abstracted over
the session state `S`: each one may fail and each one may change the session;
`getOrderSummary` and `getCompletionMessage` additionally return a value. -/
structure CheckoutStages (S E O C I : Type) where
  proceedToCheckout : S → Except E S
  fillCheckoutInformation : I → S → Except E S
  continueToReview : S → Except E S
  getOrderSummary : S → Except E (O × S)
  finishOrder : S → Except E S
  getCompletionMessage : S → Except E (C × S)

/-- `CartPage.completeCheckout(checkoutInfo)`, translated statement by
statement from the source: step 1 `proceedToCheckout`, step 2
`fillCheckoutInformation`, step 3 `continueToReview`, step 4
`getOrderSummary` (kept for the result), step 5 `finishOrder`, step 6
`getCompletionMessage`, then return `{orderSummary, completion}`.  The only
session-affecting operations it performs are these six stage calls (the rest
of the method body is console logging). -/
def completeCheckout {S E O C I : Type} (st : CheckoutStages S E O C I)
    (checkoutInfo : I) (s : S) : Except E (CheckoutResult O C × S) := do
  let s ← st.proceedToCheckout s
  let s ← st.fillCheckoutInformation checkoutInfo s
  let s ← st.continueToReview s
  let (orderSummary, s) ← st.getOrderSummary s
  let s ← st.finishOrder s
  let (completion, s) ← st.getCompletionMessage s
  .ok ({ orderSummary := orderSummary, completion := completion }, s)

/-- The spec's description of `completeCheckout(info)`: "the composed
end-to-end helper chaining all stages and returning orderSummary and
completion" — written as the plain sequential composition of the six stage
functions, with nothing else in between. -/
def completeCheckoutSpec {S E O C I : Type} (st : CheckoutStages S E O C I)
    (checkoutInfo : I) (s : S) : Except E (CheckoutResult O C × S) :=
  (st.proceedToCheckout s).bind (fun s1 =>
    (st.fillCheckoutInformation checkoutInfo s1).bind (fun s2 =>
      (st.continueToReview s2).bind (fun s3 =>
        (st.getOrderSummary s3).bind (fun os =>
          (st.finishOrder os.2).bind (fun s5 =>
            (st.getCompletionMessage s5).bind (fun cm =>
              .ok ({ orderSummary := os.1, completion := cm.1 }, cm.2)))))))

/-! ## TestDataReader (`TestDataReader.js`) -/

/-- A parsed CSV row: the JS object is modelled as an association list in key
insertion order, assignment to an existing key updating it in place. -/
abbrev CsvRow : Type := List (String × String)

/-- `rowObject[key] = value` on a JS object: update the value when the key is
already a key of the object, otherwise append the new key. -/
def jsSetKey (row : CsvRow) (k v : String) : CsvRow :=
  if row.any (fun p => p.1 = k) then
    row.map (fun p => if p.1 = k then (k, v) else p)
  else
    row ++ [(k, v)]

/-- The keys of a row object, in insertion order. -/
def rowKeys (row : CsvRow) : List String := row.map (fun p => p.1)

/-- `TestDataReader.parseCsvLine(line)`: split a line on commas that are not
inside double quotes, dropping the quote characters and trimming each
value. -/
def parseCsvLineGo : List Char → Bool → List Char → List String → List String
  | [], _, currentValue, values =>
    values ++ [jsTrim (String.mk currentValue.reverse)]
  | c :: rest, insideQuotes, currentValue, values =>
    if c = '"' then
      parseCsvLineGo rest (!insideQuotes) currentValue values
    else if c = ',' ∧ ¬insideQuotes then
      parseCsvLineGo rest insideQuotes []
        (values ++ [jsTrim (String.mk currentValue.reverse)])
    else
      parseCsvLineGo rest insideQuotes (c :: currentValue) values

/-- `TestDataReader.parseCsvLine(line)` (`currentValue` is accumulated in
reverse). -/
def parseCsvLine (line : String) : List String :=
  parseCsvLineGo line.toList false [] []

/-- The row object built from the headers and one line's values:
`headers.forEach((header, index) => rowObject[header] = values[index])`. -/
def mkRow (headers values : List String) : CsvRow :=
  (headers.zip values).foldl (fun row p => jsSetKey row p.1 p.2) []

/-- The data-row loop of `parseCsv`: each line is parsed by `parseCsvLine`; a
line whose value count differs from the header count is warned about and
skipped (`continue`), the others become row objects. -/
def parseCsvRows (headers : List String) (dataLines : List String) : List CsvRow :=
  dataLines.filterMap (fun line =>
    let values := parseCsvLine line
    if values.length = headers.length then some (mkRow headers values) else none)

/-- The line list `parseCsv` works on: the trimmed content split on
newlines. -/
def csvLines (csvContent : String) : List String :=
  jsSplitChar (jsTrim csvContent) '\n'

/-- The header list `parseCsv` works with: the first line split on plain
commas, each header trimmed. -/
def csvHeaders (csvContent : String) : List String :=
  (jsSplitChar ((csvLines csvContent).headD "") ',').map jsTrim

/-- `TestDataReader.parseCsv(csvContent)`: trim the content, split it on
newlines, throw when fewer than two lines remain, take the first line split
on plain commas (each header trimmed) as the headers, and build the row
objects from the remaining lines. -/
def parseCsv (csvContent : String) : Except JsError (List CsvRow) :=
  if (csvLines csvContent).length < 2 then
    .error (.error "CSV file must have at least a header row and one data row")
  else
    .ok (parseCsvRows (csvHeaders csvContent) ((csvLines csvContent).drop 1))

/-! ## Helper lemmas -/

/-- On non-`NaN` operands, `jsAdd` is rational addition. -/
theorem jsAdd_some (a b : ℚ) : jsAdd (some a) (some b) = some (a + b) := by
  have ha : (a.den : ℤ) ≠ 0 := by exact_mod_cast a.den_nz
  have hb : (b.den : ℤ) ≠ 0 := by exact_mod_cast b.den_nz
  simp only [jsAdd, Option.some.injEq]
  rw [← Rat.divInt_add_divInt _ _ ha hb, Rat.num_divInt_den, Rat.num_divInt_den]

/-- On non-`NaN` operands, `jsMul` is rational multiplication. -/
theorem jsMul_some (a b : ℚ) : jsMul (some a) (some b) = some (a * b) := by
  have ha : (a.den : ℤ) ≠ 0 := by exact_mod_cast a.den_nz
  have hb : (b.den : ℤ) ≠ 0 := by exact_mod_cast b.den_nz
  simp only [jsMul, Option.some.injEq]
  rw [← Rat.divInt_mul_divInt _ _ ha hb, Rat.num_divInt_den, Rat.num_divInt_den]


/-- `isElementDisplayed` computes the displayed flag of the first matching
element, and `false` when there is none. -/
theorem isElementDisplayed_eq_match (p : DomPage) (loc : String) :
    isElementDisplayed p loc
      = (match findEl p loc with
         | some el => el.displayed
         | none => false) := by
  cases h : findEl p loc <;>
    simp [isElementDisplayed, isElementDisplayedTry, driverFindElement, h]

/-! ## Claims -/

/-- C2: the claim says `createDriver(kind, headless)` fails with an
`Unsupported browser` configuration error for every unsupported kind and
launches a configured session for every supported kind (chrome or firefox,
case-insensitively).  The code does neither for any non-chrome name: line 38
of `WebDriverManager.js` calls `browserName.toLowercase()` — a method that
does not exist — so `"firefox"` (documented as supported) and `"safari"`
(unsupported) both throw a `TypeError`, and the `Unsupported browser` throw
is unreachable.  The chrome path does behave as claimed: a 1920x1080 window
size, the stability flags and a 10s implicit wait. -/
theorem createDriver_typo_failure :
    createDriver "firefox" false
      = .error (.typeError "browserName.toLowercase is not a function")
    ∧ createDriver "safari" false
      = .error (.typeError "browserName.toLowercase is not a function")
    ∧ createDriver "CHROME" true
      = .ok { browser := "chrome", headless := true,
              args := ["--headless", "--no-sandbox", "--disable-dev-shm-usage",
                       "--disable-gpu", "--window-size=1920,1080"],
              implicitWaitMs := 10000 } := by
  refine ⟨by decide, by decide, by decide⟩

/-- C3: `quitDriver` never throws past the caller — whatever the manager
state (driver present or absent) and whatever the outcome of the underlying
`driver.quit()` call (clean or throwing), it returns normally; and when no
driver exists it performs no driver call at all. -/
theorem quitDriver_never_throws (m : ManagerState) :
    quitDriver m
      = .ok (match m.driver with
             | none => []
             | some _ => [DriverEv.quitCalled]) := by
  obtain ⟨_ | q⟩ := m
  · rfl
  · cases q <;> rfl

/-- C4: `completeCheckout(checkoutInfo)` is exactly the sequential
composition of `proceedToCheckout`, `fillCheckoutInformation(checkoutInfo)`,
`continueToReview`, `getOrderSummary`, `finishOrder`,
`getCompletionMessage`, in that order, returning the
`{orderSummary, completion}` record built from the `getOrderSummary` and
`getCompletionMessage` results — for every implementation of the six stage
methods, every checkout-info record and every session state, so no other
session-affecting operation is involved. -/
theorem completeCheckout_is_stage_composition {S E O C I : Type}
    (st : CheckoutStages S E O C I) (checkoutInfo : I) (s : S) :
    completeCheckout st checkoutInfo s = completeCheckoutSpec st checkoutInfo s := by
  simp only [completeCheckout, completeCheckoutSpec, bind, Except.bind]

/-- C8: `isElementDisplayed` is a non-throwing probe: it is a total
`Bool`-valued function (the `try` body's errors are all caught and turned
into `false`), it returns `false` when no element matches the locator or the
matching element is not displayed, and it returns `true` exactly when a
matching element exists and is displayed. -/
theorem isElementDisplayed_probe (p : DomPage) (loc : String) :
    (findEl p loc = none → isElementDisplayed p loc = false)
    ∧ (∀ el, findEl p loc = some el → isElementDisplayed p loc = el.displayed)
    ∧ (isElementDisplayed p loc = true ↔
        ∃ el, findEl p loc = some el ∧ el.displayed = true) := by
  refine ⟨?_, ?_, ?_⟩
  · intro h
    rw [isElementDisplayed_eq_match, h]
  · intro el h
    rw [isElementDisplayed_eq_match, h]
  · rw [isElementDisplayed_eq_match]
    cases h : findEl p loc with
    | none => simp
    | some el => simp

/-- C8 witness: on a one-element page the probe answers `true` for the
displayed element's locator and `false` for an absent locator. -/
theorem isElementDisplayed_probe_witness :
    isElementDisplayed ⟨[("#login-button", { displayed := true, textRes := some "Login", attrId := some "login-button" })]⟩ "#login-button" = true
    ∧ isElementDisplayed ⟨[("#login-button", { displayed := true, textRes := some "Login", attrId := some "login-button" })]⟩ "#missing" = false := by
  constructor
  · exact (isElementDisplayed_probe ⟨[("#login-button", { displayed := true, textRes := some "Login", attrId := some "login-button" })]⟩ "#login-button").2.1
      { displayed := true, textRes := some "Login", attrId := some "login-button" } rfl
  · exact (isElementDisplayed_probe ⟨[("#login-button", { displayed := true, textRes := some "Login", attrId := some "login-button" })]⟩ "#missing").1 rfl

/-- C6: `getErrorMessage` returns the sentinel `null` (no exception) when no
error banner is displayed, and the banner's text when one is displayed (the
banner's text being readable, which on a consistent page snapshot a displayed
element's text is). -/
theorem getErrorMessage_sentinel (p : DomPage) :
    (isElementDisplayed p errorMessageLoc = false → getErrorMessage p = .ok none)
    ∧ (∀ el t, findEl p errorMessageLoc = some el → el.displayed = true →
        el.textRes = some t → getErrorMessage p = .ok (some t)) := by
  constructor
  · intro h
    simp [getErrorMessage, h]
  · intro el t hfind hdisp htext
    have hdisp' : isElementDisplayed p errorMessageLoc = true := by
      rw [isElementDisplayed_eq_match, hfind]
      exact hdisp
    simp [getErrorMessage, hdisp', getElementText, baseFindElement,
      driverFindElement, hfind, getText, htext]

/-- C6 witness: a page without the banner yields the sentinel `null`; a page
whose banner is displayed with text "Epic sadface" yields that text. -/
theorem getErrorMessage_sentinel_witness :
    getErrorMessage ⟨[]⟩ = .ok none
    ∧ getErrorMessage ⟨[(errorMessageLoc, { displayed := true, textRes := some "Epic sadface", attrId := none })]⟩ = .ok (some "Epic sadface") := by
  constructor
  · exact (getErrorMessage_sentinel ⟨[]⟩).1 rfl
  · exact (getErrorMessage_sentinel ⟨[(errorMessageLoc, { displayed := true, textRes := some "Epic sadface", attrId := none })]⟩).2
      { displayed := true, textRes := some "Epic sadface", attrId := none } "Epic sadface" rfl rfl rfl

/-- C10: `getCartItemCount` never throws — it is a total function into JS
numbers, the `try` body's errors all being caught and turned into `0`.  It
returns `0` when the cart badge is absent or not displayed (so an empty cart
and a missing badge are indistinguishable here), `0` when the badge's text
read fails, and otherwise the `parseInt` of the badge text. -/
theorem getCartItemCount_total (page : ProductsPageState) :
    (badgeDisplayed page = false → getCartItemCount page = some 0)
    ∧ (∀ el, page.cartBadge = some el → el.displayed = true → el.textRes = none →
        getCartItemCount page = some 0)
    ∧ (∀ el t, page.cartBadge = some el → el.displayed = true → el.textRes = some t →
        getCartItemCount page = jsParseInt t) := by
  refine ⟨?_, ?_, ?_⟩
  · intro h
    simp [getCartItemCount, getCartItemCountTry, h]
  · intro el hb hdisp htext
    have hd : badgeDisplayed page = true := by simp [badgeDisplayed, hb, hdisp]
    simp [getCartItemCount, getCartItemCountTry, hd, hb, getText, htext]
  · intro el t hb hdisp htext
    have hd : badgeDisplayed page = true := by simp [badgeDisplayed, hb, hdisp]
    simp [getCartItemCount, getCartItemCountTry, hd, hb, getText, htext]

/-- C10 witness: a page without a badge reports `0`; a page whose badge is
displayed but whose text read fails reports `0`; a page whose badge reads
"3" reports `3`. -/
theorem getCartItemCount_total_witness :
    getCartItemCount ⟨[], none⟩ = some 0
    ∧ getCartItemCount ⟨[], some { displayed := true, textRes := none, attrId := none }⟩ = some 0
    ∧ getCartItemCount ⟨[], some { displayed := true, textRes := some "3", attrId := none }⟩ = some 3 := by
  refine ⟨?_, ?_, ?_⟩
  · exact (getCartItemCount_total ⟨[], none⟩).1 rfl
  · exact (getCartItemCount_total ⟨[], some { displayed := true, textRes := none, attrId := none }⟩).2.1
      { displayed := true, textRes := none, attrId := none } rfl rfl rfl
  · have h := (getCartItemCount_total ⟨[], some { displayed := true, textRes := some "3", attrId := none }⟩).2.2
      { displayed := true, textRes := some "3", attrId := none } "3" rfl rfl rfl
    rw [h]
    decide

/-- Any cart item produced by a successful row extraction has
`totalPrice = price * quantity`. -/
theorem extractCartItem_totalPrice {it : CartItemElem} {i : Nat} {item : CartItem}
    (h : extractCartItem it i = .ok item) :
    item.totalPrice = jsMul item.price item.quantity := by
  unfold extractCartItem at h
  split at h
  · split at h
    · cases h
      rfl
    · exact absurd h (by simp)
  · exact absurd h (by simp)

/-- Every item of a successful run of the `getCartItems` loop satisfies the
line-total identity. -/
theorem getCartItemsGo_totalPrice :
    ∀ (items : List CartItemElem) (i : Nat) (l : List CartItem),
      getCartItemsGo items i = .ok l →
      ∀ item ∈ l, item.totalPrice = jsMul item.price item.quantity := by
  intro items
  induction items with
  | nil =>
    intro i l h item hmem
    cases h
    simp at hmem
  | cons it rest ih =>
    intro i l h item hmem
    unfold getCartItemsGo at h
    cases he : extractCartItem it i with
    | error e => rw [he] at h; exact absurd h (by simp)
    | ok first =>
      rw [he] at h
      cases hr : getCartItemsGo rest (i + 1) with
      | error e => rw [hr] at h; exact absurd h (by simp)
      | ok tail =>
        rw [hr] at h
        cases h
        rcases List.mem_cons.mp hmem with hh | ht
        · subst hh
          exact extractCartItem_totalPrice he
        · exact ih (i + 1) tail hr item ht

/-- C7: every enumerated cart item's computed line total equals its numeric
price times its quantity, and `calculateExpectedSubtotal` is exactly the sum
of these price-times-quantity line totals over the enumerated items, `0` for
an empty enumeration. -/
theorem cart_line_totals_and_subtotal (items : List CartItemElem) :
    (∀ item ∈ getCartItems items, item.totalPrice = jsMul item.price item.quantity)
    ∧ calculateExpectedSubtotal items
        = ((getCartItems items).map
            (fun item => jsMul item.price item.quantity)).foldl jsAdd (some 0)
    ∧ (getCartItems items = [] → calculateExpectedSubtotal items = some 0) := by
  have hmem : ∀ item ∈ getCartItems items,
      item.totalPrice = jsMul item.price item.quantity := by
    intro item hmemb
    unfold getCartItems at hmemb
    cases h : getCartItemsGo items 0 with
    | error e => rw [h] at hmemb; simp at hmemb
    | ok l =>
      rw [h] at hmemb
      exact getCartItemsGo_totalPrice items 0 l h item hmemb
  refine ⟨hmem, ?_, ?_⟩
  · rw [List.foldl_map]
    unfold calculateExpectedSubtotal
    exact List.foldl_ext _ _ (some 0)
      (fun acc item hm => by rw [hmem item hm])
  · intro h
    unfold calculateExpectedSubtotal
    rw [h]
    rfl

/-- C7 witness: a cart with one well-formed row priced `$5.00` at quantity 2
has line total `10` and subtotal `10`; the empty cart has subtotal `0`. -/
theorem cart_line_totals_and_subtotal_witness :
    ({ index := 0, name := "Sauce Labs Backpack", price := some 5,
       priceText := "$5.00", quantity := some 2,
       removeButtonId := some "remove-sauce-labs-backpack",
       totalPrice := some 10 } : CartItem).totalPrice
      = jsMul (some 5) (some 2)
    ∧ calculateExpectedSubtotal [] = some 0 := by
  constructor
  · have h := (cart_line_totals_and_subtotal
      [⟨some { displayed := true, textRes := some "Sauce Labs Backpack", attrId := none },
        some { displayed := true, textRes := some "$5.00", attrId := none },
        some { displayed := true, textRes := some "2", attrId := none },
        some { displayed := true, textRes := some "", attrId := some "remove-sauce-labs-backpack" }⟩]).1
      { index := 0, name := "Sauce Labs Backpack", price := some 5,
        priceText := "$5.00", quantity := some 2,
        removeButtonId := some "remove-sauce-labs-backpack",
        totalPrice := some 10 } (by decide)
    exact h
  · exact (cart_line_totals_and_subtotal []).2.2 rfl

/-- The products loop keeps exactly the cards whose extraction succeeds, in
order, each indexed by its position. -/
theorem getAllProductsGo_eq (cards : List ProductCard) (i : Nat) :
    getAllProductsGo cards i
      = (cards.enumFrom i).filterMap
          (fun p => (extractProduct p.2 p.1).toOption) := by
  induction cards generalizing i with
  | nil => rfl
  | cons c rest ih =>
    rw [List.enumFrom_cons, List.filterMap_cons]
    unfold getAllProductsGo
    cases h : extractProduct c i with
    | ok p => simp [Except.toOption, ih]
    | error e => simp [Except.toOption, ih]

/-- The cons equation of the cart loop. -/
theorem getCartItemsGo_cons (it : CartItemElem) (rest : List CartItemElem)
    (i : Nat) :
    getCartItemsGo (it :: rest) i
      = (match extractCartItem it i with
         | .error e => .error e
         | .ok item =>
           (match getCartItemsGo rest (i + 1) with
            | .error e => .error e
            | .ok items => .ok (item :: items))) := rfl

/-- The cart loop succeeds exactly when every row's extraction succeeds. -/
theorem getCartItemsGo_isOk (items : List CartItemElem) (i : Nat) :
    (getCartItemsGo items i).isOk = true ↔
      ∀ p ∈ items.enumFrom i, (extractCartItem p.2 p.1).isOk = true := by
  induction items generalizing i with
  | nil => simp [getCartItemsGo, Except.isOk, Except.toBool]
  | cons it rest ih =>
    rw [List.enumFrom_cons]
    have hstep : (getCartItemsGo (it :: rest) i).isOk = true ↔
        ((extractCartItem it i).isOk = true
          ∧ (getCartItemsGo rest (i + 1)).isOk = true) := by
      rw [getCartItemsGo_cons]
      cases he : extractCartItem it i <;>
        cases hr : getCartItemsGo rest (i + 1) <;>
          simp [Except.isOk, Except.toBool]
    rw [hstep, ih]
    simp

/-- When every row extracts, the cart loop returns them all, in order. -/
theorem getCartItemsGo_all_ok (items : List CartItemElem) (i : Nat)
    (h : ∀ p ∈ items.enumFrom i, (extractCartItem p.2 p.1).isOk = true) :
    getCartItemsGo items i
      = .ok ((items.enumFrom i).filterMap
          (fun p => (extractCartItem p.2 p.1).toOption)) := by
  induction items generalizing i with
  | nil => simp [getCartItemsGo]
  | cons it rest ih =>
    rw [List.enumFrom_cons] at h ⊢
    rw [List.forall_mem_cons] at h
    obtain ⟨h1, h2⟩ := h
    rw [getCartItemsGo_cons]
    cases he : extractCartItem it i with
    | error e => rw [he] at h1; simp [Except.isOk, Except.toBool] at h1
    | ok item =>
      rw [ih _ h2, List.filterMap_cons]
      simp [he, Except.toOption]

/-- C1 counterexample: a cart page with a well-formed first row and a second
row whose price element is missing.  The first row alone is extractable, yet
`getCartItems` returns the empty list — not the partial result the claim
promises. -/
theorem getCartItems_no_partial_result :
    getCartItems
        [⟨some { displayed := true, textRes := some "Sauce Labs Backpack", attrId := none },
          some { displayed := true, textRes := some "$29.99", attrId := none },
          some { displayed := true, textRes := some "1", attrId := none },
          some { displayed := true, textRes := some "", attrId := some "remove-sauce-labs-backpack" }⟩,
         ⟨some { displayed := true, textRes := some "Sauce Labs Bike Light", attrId := none },
          none,
          some { displayed := true, textRes := some "1", attrId := none },
          some { displayed := true, textRes := some "", attrId := some "remove-sauce-labs-bike-light" }⟩]
      = []
    ∧ (extractCartItem
        ⟨some { displayed := true, textRes := some "Sauce Labs Backpack", attrId := none },
         some { displayed := true, textRes := some "$29.99", attrId := none },
         some { displayed := true, textRes := some "1", attrId := none },
         some { displayed := true, textRes := some "", attrId := some "remove-sauce-labs-backpack" }⟩
        0).isOk = true := by
  exact ⟨rfl, rfl⟩

/-- C1 amended: `getAllProducts` does tolerate per-card extraction errors —
it skips the offending card and keeps the successfully extracted products as
a partial result.  `getCartItems`, however, handles extraction errors at
whole-enumeration granularity: one malformed row makes it return the empty
list (logging, not throwing), discarding even the items already extracted;
only when every row is well-formed does it return the extracted items. -/
theorem enumeration_error_granularity (cards : List ProductCard)
    (items : List CartItemElem) (hc : cards ≠ []) :
    getAllProducts cards
      = .ok (cards.enum.filterMap (fun p => (extractProduct p.2 p.1).toOption))
    ∧ ((∃ p ∈ items.enum, (extractCartItem p.2 p.1).isOk = false) →
        getCartItems items = [])
    ∧ ((∀ p ∈ items.enum, (extractCartItem p.2 p.1).isOk = true) →
        getCartItems items
          = items.enum.filterMap (fun p => (extractCartItem p.2 p.1).toOption)) := by
  refine ⟨?_, ?_, ?_⟩
  · unfold getAllProducts
    rw [if_neg (by simpa [List.isEmpty_iff] using hc)]
    rw [getAllProductsGo_eq]
    rfl
  · intro ⟨p, hp, hfail⟩
    unfold getCartItems
    cases hg : getCartItemsGo items 0 with
    | error e => rfl
    | ok l =>
      have hok : (getCartItemsGo items 0).isOk = true := by rw [hg]; rfl
      have hall := (getCartItemsGo_isOk items 0).mp hok p hp
      rw [hall] at hfail
      cases hfail
  · intro hall
    unfold getCartItems
    rw [getCartItemsGo_all_ok items 0 hall]
    rfl

/-- C1 amended witness: with a well-formed card followed by a card missing
its price element, `getAllProducts` keeps the good product; `getCartItems`
on the analogous rows returns `[]`, and on the single good row returns that
item. -/
theorem enumeration_error_granularity_witness :
    getAllProducts
        [⟨some { displayed := true, textRes := some "Sauce Labs Backpack", attrId := none },
          some { displayed := true, textRes := some "$29.99", attrId := none },
          some { displayed := true, textRes := some "descr", attrId := none },
          some { displayed := true, textRes := some "Add to cart", attrId := some "add-to-cart-sauce-labs-backpack" }⟩,
         ⟨some { displayed := true, textRes := some "Sauce Labs Bike Light", attrId := none },
          none,
          some { displayed := true, textRes := some "descr", attrId := none },
          some { displayed := true, textRes := some "Add to cart", attrId := some "add-to-cart-sauce-labs-bike-light" }⟩]
      = .ok [{ index := 0, name := "Sauce Labs Backpack",
               price := some (Rat.divInt 2999 100), priceText := "$29.99",
               description := "descr",
               buttonId := some "add-to-cart-sauce-labs-backpack" }]
    ∧ getCartItems
        [⟨some { displayed := true, textRes := some "A", attrId := none },
          some { displayed := true, textRes := some "$1", attrId := none },
          some { displayed := true, textRes := some "1", attrId := none },
          some { displayed := true, textRes := some "", attrId := some "remove-a" }⟩,
         ⟨some { displayed := true, textRes := some "B", attrId := none },
          none,
          some { displayed := true, textRes := some "1", attrId := none },
          some { displayed := true, textRes := some "", attrId := some "remove-b" }⟩]
      = []
    ∧ getCartItems
        [⟨some { displayed := true, textRes := some "A", attrId := none },
          some { displayed := true, textRes := some "$1", attrId := none },
          some { displayed := true, textRes := some "1", attrId := none },
          some { displayed := true, textRes := some "", attrId := some "remove-a" }⟩]
      = [{ index := 0, name := "A", price := some (Rat.divInt 1 1),
           priceText := "$1", quantity := some (Rat.divInt 1 1),
           removeButtonId := some "remove-a",
           totalPrice := some (Rat.divInt 1 1) }] := by
  refine ⟨?_, ?_, ?_⟩
  · have h := (enumeration_error_granularity
      [⟨some { displayed := true, textRes := some "Sauce Labs Backpack", attrId := none },
        some { displayed := true, textRes := some "$29.99", attrId := none },
        some { displayed := true, textRes := some "descr", attrId := none },
        some { displayed := true, textRes := some "Add to cart", attrId := some "add-to-cart-sauce-labs-backpack" }⟩,
       ⟨some { displayed := true, textRes := some "Sauce Labs Bike Light", attrId := none },
        none,
        some { displayed := true, textRes := some "descr", attrId := none },
        some { displayed := true, textRes := some "Add to cart", attrId := some "add-to-cart-sauce-labs-bike-light" }⟩]
      [] (by simp)).1
    rw [h]
    decide
  · exact (enumeration_error_granularity [⟨none, none, none, none⟩]
      [⟨some { displayed := true, textRes := some "A", attrId := none },
        some { displayed := true, textRes := some "$1", attrId := none },
        some { displayed := true, textRes := some "1", attrId := none },
        some { displayed := true, textRes := some "", attrId := some "remove-a" }⟩,
       ⟨some { displayed := true, textRes := some "B", attrId := none },
        none,
        some { displayed := true, textRes := some "1", attrId := none },
        some { displayed := true, textRes := some "", attrId := some "remove-b" }⟩]
      (by simp)).2.1 (by decide)
  · have h := (enumeration_error_granularity [⟨none, none, none, none⟩]
      [⟨some { displayed := true, textRes := some "A", attrId := none },
        some { displayed := true, textRes := some "$1", attrId := none },
        some { displayed := true, textRes := some "1", attrId := none },
        some { displayed := true, textRes := some "", attrId := some "remove-a" }⟩]
      (by simp)).2.2 (by decide)
    rw [h]
    decide

/-- C5: `addProductToCartByName(name)` fails with the NotFound error
`Product "name" not found on page` when no enumerated product carries exactly
that name; otherwise (the matched product's add-to-cart control resolving) it
clicks that control and blocks until the cart counter strictly equals the
count read before the click plus one, observed at some poll — failing with
the wait's timeout error when no poll reaches that value. -/
theorem addProductToCartByName_spec (W : ProductsWorld) (productName : String)
    (ps : List Product) (hps : getAllProducts W.page0.cards = .ok ps) :
    (ps.find? (fun p => p.name = productName) = none →
      addProductToCartByName W productName
        = .error (.error ("Product " ++ "\"" ++ productName ++ "\"" ++ " not found on page")))
    ∧ (∀ target idStr,
        ps.find? (fun p => p.name = productName) = some target →
        target.buttonId = some idStr →
        (findButtonById W.page0 target.buttonId).isOk = true →
        addProductToCartByName W productName
          = (if (W.afterClick idStr).any
                (fun pg => jsEqNum (getCartItemCount pg)
                  (jsAdd (getCartItemCount W.page0) (some 1)))
             then .ok ()
             else .error (.timeout "Cart count did not reach expected value within timeout"))) := by
  constructor
  · intro hfind
    simp only [addProductToCartByName, hps, hfind]
  · intro target idStr hfind hid hbtn
    cases hb : findButtonById W.page0 target.buttonId with
    | error e => rw [hb] at hbtn; simp [Except.isOk, Except.toBool] at hbtn
    | ok btn =>
      rw [hid] at hb
      simp only [addProductToCartByName, hps, hfind, hid, hb,
        waitForCartCountChange]

/-- C5 witness: in `sampleWorld` (no badge, one product, post-click poll
showing "1"), adding "Sauce Labs Backpack" succeeds, and adding a name not on
the page fails with the NotFound error. -/
theorem addProductToCartByName_spec_witness :
    addProductToCartByName sampleWorld "Sauce Labs Backpack" = .ok ()
    ∧ addProductToCartByName sampleWorld "Sauce Labs Onesie"
        = .error (.error ("Product " ++ "\"" ++ "Sauce Labs Onesie" ++ "\"" ++ " not found on page")) := by
  constructor
  · have h := (addProductToCartByName_spec sampleWorld "Sauce Labs Backpack"
      [sampleBackpackProduct] (by decide)).2 sampleBackpackProduct
      "add-to-cart-sauce-labs-backpack" (by decide) (by decide) (by decide)
    rw [h]
    decide
  · exact (addProductToCartByName_spec sampleWorld "Sauce Labs Onesie"
      [sampleBackpackProduct] (by decide)).1 (by decide)

/-- Updating an existing key in place leaves the key list unchanged. -/
theorem rowKeys_update (row : CsvRow) (k v : String) :
    rowKeys (row.map (fun p => if p.1 = k then (k, v) else p)) = rowKeys row := by
  unfold rowKeys
  rw [List.map_map]
  apply List.map_congr_left
  intro p hp
  by_cases hpk : p.1 = k
  · simp [hpk]
  · simp [hpk]

/-- Membership in the key list after a JS object assignment. -/
theorem mem_rowKeys_jsSetKey (row : CsvRow) (k v k' : String) :
    k' ∈ rowKeys (jsSetKey row k v) ↔ k' ∈ rowKeys row ∨ k' = k := by
  unfold jsSetKey
  by_cases h : row.any (fun p => p.1 = k)
  · rw [if_pos h, rowKeys_update]
    have hk : k ∈ rowKeys row := by
      rcases List.any_eq_true.mp h with ⟨p, hp, hpk⟩
      exact List.mem_map.mpr ⟨p, hp, by simpa using hpk⟩
    constructor
    · exact Or.inl
    · rintro (h1 | rfl)
      · exact h1
      · exact hk
  · rw [if_neg h]
    unfold rowKeys
    simp

/-- A JS object assignment keeps the key list duplicate-free. -/
theorem rowKeys_jsSetKey_nodup (row : CsvRow) (k v : String)
    (h : (rowKeys row).Nodup) : (rowKeys (jsSetKey row k v)).Nodup := by
  unfold jsSetKey
  by_cases ha : row.any (fun p => p.1 = k)
  · rw [if_pos ha, rowKeys_update]
    exact h
  · rw [if_neg ha]
    unfold rowKeys at h ⊢
    rw [List.map_append]
    have hk : k ∉ row.map (fun p => p.1) := by
      intro hmem
      rcases List.mem_map.mp hmem with ⟨p, hp, hpk⟩
      have hany : row.any (fun p => p.1 = k) = true :=
        List.any_eq_true.mpr ⟨p, hp, by simp [hpk]⟩
      exact ha hany
    simp [List.nodup_append, h, hk]

/-- Key membership after folding JS object assignments over a pair list. -/
theorem mem_rowKeys_foldSet (pairs : List (String × String)) (row : CsvRow)
    (k' : String) :
    k' ∈ rowKeys (pairs.foldl (fun r p => jsSetKey r p.1 p.2) row) ↔
      k' ∈ rowKeys row ∨ k' ∈ pairs.map Prod.fst := by
  induction pairs generalizing row with
  | nil => simp
  | cons p rest ih =>
    simp only [List.foldl_cons, List.map_cons, List.mem_cons]
    rw [ih, mem_rowKeys_jsSetKey]
    tauto

/-- Folding JS object assignments keeps the key list duplicate-free. -/
theorem rowKeys_foldSet_nodup (pairs : List (String × String)) (row : CsvRow)
    (h : (rowKeys row).Nodup) :
    (rowKeys (pairs.foldl (fun r p => jsSetKey r p.1 p.2) row)).Nodup := by
  induction pairs generalizing row with
  | nil => exact h
  | cons p rest ih => exact ih _ (rowKeys_jsSetKey_nodup _ _ _ h)

/-- A row built from headers and a same-length value list has exactly the
headers as keys. -/
theorem mem_rowKeys_mkRow (headers values : List String) (k : String)
    (hlen : values.length = headers.length) :
    k ∈ rowKeys (mkRow headers values) ↔ k ∈ headers := by
  unfold mkRow
  rw [mem_rowKeys_foldSet]
  rw [List.map_fst_zip _ _ (le_of_eq hlen.symm)]
  simp [rowKeys]

/-- A built row never repeats a key. -/
theorem rowKeys_mkRow_nodup (headers values : List String) :
    (rowKeys (mkRow headers values)).Nodup :=
  rowKeys_foldSet_nodup _ [] (by simp [rowKeys])

/-- The row loop keeps one row per data line whose value count matches the
header count. -/
theorem parseCsvRows_length (headers : List String) (dataLines : List String) :
    (parseCsvRows headers dataLines).length
      = (dataLines.filter
          (fun line => decide ((parseCsvLine line).length = headers.length))).length := by
  induction dataLines with
  | nil => rfl
  | cons l rest ih =>
    unfold parseCsvRows at ih ⊢
    rw [List.filterMap_cons, List.filter_cons]
    by_cases h : (parseCsvLine l).length = headers.length
    · simp [h, ih]
    · simp [h, ih]

/-- C9: on content with fewer than two lines (after trimming and splitting
on newlines) `parseCsv` throws; otherwise it succeeds, returning exactly one
row object per data line whose parsed value count equals the header count
(the others are silently omitted, with a logged warning), and every returned
row object has exactly the header columns as its keys, each key once. -/
theorem parseCsv_shape (csvContent : String) :
    ((csvLines csvContent).length < 2 →
      parseCsv csvContent
        = .error (.error "CSV file must have at least a header row and one data row"))
    ∧ (2 ≤ (csvLines csvContent).length →
        parseCsv csvContent
          = .ok (parseCsvRows (csvHeaders csvContent) ((csvLines csvContent).drop 1))
        ∧ (∀ row ∈ parseCsvRows (csvHeaders csvContent) ((csvLines csvContent).drop 1),
            (∀ k, k ∈ rowKeys row ↔ k ∈ csvHeaders csvContent)
            ∧ (rowKeys row).Nodup)
        ∧ (parseCsvRows (csvHeaders csvContent) ((csvLines csvContent).drop 1)).length
            = (((csvLines csvContent).drop 1).filter
                (fun line =>
                  decide ((parseCsvLine line).length = (csvHeaders csvContent).length))).length) := by
  constructor
  · intro h
    simp only [parseCsv, if_pos h]
  · intro h
    have hnot : ¬ (csvLines csvContent).length < 2 := not_lt.mpr h
    refine ⟨by simp only [parseCsv, if_neg hnot], ?_, parseCsvRows_length _ _⟩
    intro row hrow
    obtain ⟨line, hline, hf⟩ := List.mem_filterMap.mp hrow
    by_cases hlen : (parseCsvLine line).length = (csvHeaders csvContent).length
    · rw [if_pos hlen] at hf
      cases hf
      exact ⟨fun k => mem_rowKeys_mkRow _ _ k hlen, rowKeys_mkRow_nodup _ _⟩
    · rw [if_neg hlen] at hf
      cases hf

/-- C9 witness: a three-line content (header, one well-formed row, one
malformed row) parses to exactly one row object keyed by the headers; a
one-line content throws. -/
theorem parseCsv_shape_witness :
    parseCsv "user,pass\n alice , a1\nmalformed"
      = .ok [[("user", "alice"), ("pass", "a1")]]
    ∧ ("user" ∈ rowKeys [("user", "alice"), ("pass", "a1")]
        ∧ (rowKeys [("user", "alice"), ("pass", "a1")]).Nodup)
    ∧ parseCsv "single"
        = .error (.error "CSV file must have at least a header row and one data row") := by
  refine ⟨?_, ?_, ?_⟩
  · have h := ((parseCsv_shape "user,pass\n alice , a1\nmalformed").2 (by decide)).1
    rw [h]
    decide
  · have hB := ((parseCsv_shape "user,pass\n alice , a1\nmalformed").2 (by decide)).2.1
      [("user", "alice"), ("pass", "a1")] (by decide)
    exact ⟨(hB.1 "user").mpr (by decide), hB.2⟩
  · exact (parseCsv_shape "single").1 (by decide)

end SauceDemo
